import Mathlib

/-!
Verification of the house-energy-monitor polling and metering pipeline.

The Python sources are shallowly embedded: numeric values become `ℚ`,
timestamps become `ℕ` (seconds), fallible operations return `Except`,
database tables become lists of rows, and each relevant Python function
becomes a Lean definition with the same name where possible.
-/

namespace HouseEnergy

/-! ## Counter diff (read-side incremental conversion)

`src/app/pages/device.py` line 87 (and `home.py` lines 69-71) computes
incremental usage from the stored cumulative column with
`df[col].diff().clip(lower=0).fillna(0)`: the first row's diff is `NaN`,
replaced by 0; each later row is `max 0 (v_i - v_(i-1))`. -/

/-- Helper for `counterDiff`: given the previous cumulative value, emit
`max 0 (v - prev)` for each subsequent value (pandas `diff().clip(lower=0)`). -/
def diffAux (prev : ℚ) : List ℚ → List ℚ
  | [] => []
  | v :: vs => max 0 (v - prev) :: diffAux v vs

/-- `diff().clip(lower=0).fillna(0)` over one device+metric cumulative series:
first entry 0 (the `NaN` of `.diff()` filled by `.fillna(0)`), then
`max 0 (v_i - v_(i-1))`. -/
def counterDiff : List ℚ → List ℚ
  | [] => []
  | v :: vs => 0 :: diffAux v vs

theorem diffAux_eq_zipWith (prev : ℚ) (vs : List ℚ) :
    diffAux prev vs = List.zipWith (fun a b => max 0 (b - a)) (prev :: vs) vs := by
  induction vs generalizing prev with
  | nil => rfl
  | cons v vs ih => simp [diffAux, ih]

theorem diffAux_nonneg (prev : ℚ) (vs : List ℚ) (i : ℕ) :
    0 ≤ (diffAux prev vs).getD i 0 := by
  induction vs generalizing prev i with
  | nil => simp [diffAux]
  | cons v vs ih =>
    cases i with
    | zero => simp [diffAux]
    | succ j => simpa [diffAux] using ih v j

theorem diffAux_sum (prev : ℚ) (vs : List ℚ) (hmono : List.Chain (· ≤ ·) prev vs) :
    (diffAux prev vs).sum = vs.getLastD prev - prev := by
  induction vs generalizing prev with
  | nil => simp [diffAux]
  | cons v vs ih =>
    rcases hmono with _ | ⟨hle, hchain⟩
    have hsum := ih v hchain
    have hmax : max 0 (v - prev) = v - prev := by
      rw [max_eq_right]; linarith
    simp only [diffAux, List.sum_cons, hmax, List.getLastD_cons, hsum]
    ring

/-! ## Write-side pipeline (`src/scripts/logger.py`)

`poll_device` (lines 138-160) loops `for attempt in range(1, retries+1)`,
on each attempt issuing the HTTP GET, parsing JSON and converting the
fields; any exception logs a warning and sleeps 1 s before the next
attempt; after the loop it logs an error and returns `(None, None, None)`.
The field conversion (lines 146-148) is
`float(data.get("total_power_import_kwh", 0)) if "import_kwh" in supports else None`
and likewise for export and gas: a missing key defaults to `0`, a
non-numeric value makes `float` raise. -/

/-- A JSON field of the device response: absent, a numeric value, or a
value `float()` cannot convert. -/
inductive JField
  | absent
  | num (q : ℚ)
  | nonnum
deriving DecidableEq

/-- The device `/data` JSON body, restricted to the fields the logger reads. -/
structure DeviceResponse where
  total_power_import_kwh : JField
  total_power_export_kwh : JField
  total_gas_m3 : JField
deriving DecidableEq

/-- `float(data.get(key, 0))`: absent key → `0`; numeric → its value;
non-numeric → `ValueError` (modelled as `Except.error`). -/
def floatOfGet : JField → Except Unit ℚ
  | .absent => .ok 0
  | .num q => .ok q
  | .nonnum => .error ()

/-- The per-metric triple `poll_device` returns on success
(`None` for an unsupported metric). -/
structure RawReading where
  import_kwh : Option ℚ
  export_kwh : Option ℚ
  gas_m3 : Option ℚ
deriving DecidableEq

/-- One metric of lines 146-148: convert the field when the metric is in
`supports`, else `None`. -/
def parseMetric (supported : Bool) (f : JField) : Except Unit (Option ℚ) :=
  if supported then Except.map some (floatOfGet f) else .ok none

/-- Lines 146-148 of `poll_device`: sequential conversion of the three
metrics; the first `float()` failure aborts the attempt. -/
def pollParse (data : DeviceResponse) (supports : List String) :
    Except Unit RawReading :=
  match parseMetric (decide ("import_kwh" ∈ supports)) data.total_power_import_kwh with
  | .error e => .error e
  | .ok ik =>
    match parseMetric (decide ("export_kwh" ∈ supports)) data.total_power_export_kwh with
    | .error e => .error e
    | .ok ek =>
      match parseMetric (decide ("gas_m3" ∈ supports)) data.total_gas_m3 with
      | .error e => .error e
      | .ok gm => .ok ⟨ik, ek, gm⟩

/-- Outcome of `poll_device`: a reading, or the `(None, None, None)` failure. -/
inductive PollOutcome
  | success (r : RawReading)
  | failure
deriving DecidableEq

/-- `poll_device`'s observable behaviour: outcome, number of calls to the
underlying client, and number of `time.sleep(1)` executions. -/
structure PollStats where
  outcome : PollOutcome
  calls : ℕ
  sleeps : ℕ
deriving DecidableEq

/-- The retry loop of `poll_device` (lines 141-160): `attemptF n` is attempt
number `n` (HTTP GET + JSON + field conversion); a success returns at once,
a failure sleeps 1 s and continues; exhaustion returns the failure triple. -/
def pollLoop (attemptF : ℕ → Except Unit RawReading) :
    ℕ → ℕ → PollStats
  | _, 0 => ⟨.failure, 0, 0⟩
  | attempt, n + 1 =>
    match attemptF attempt with
    | .ok r => ⟨.success r, 1, 0⟩
    | .error _ =>
      let rest := pollLoop attemptF (attempt + 1) n
      ⟨rest.outcome, rest.calls + 1, rest.sleeps + 1⟩

/-- `poll_device(device_id, meta, timeout, retries, log)`: attempts numbered
from 1, at most `retries` of them. -/
def poll_device (attemptF : ℕ → Except Unit RawReading) (retries : ℕ) :
    PollStats :=
  pollLoop attemptF 1 retries

/-- Lines 196-198 of `main` in `src/scripts/logger.py`: the reading is
inserted only when at least one metric value is not `None`; `insert_reading`
(lines 124-135) then writes the values unchanged into the
`total_import_kwh` / `total_export_kwh` / `total_gas_m3` columns. -/
def cycleInsert (r : RawReading) : Option RawReading :=
  if r.import_kwh ≠ none ∨ r.export_kwh ≠ none ∨ r.gas_m3 ≠ none then some r
  else none

/-- The rows `insert_reading` persists over a run, given the per-cycle
`poll_device` results. -/
def loggerStoredRows (polled : List RawReading) : List RawReading :=
  polled.filterMap cycleInsert

/-- The row filter of the read-side query in `fetch_data`
(`src/app/pages/device.py` line 72):
`total_import_kwh > 0 OR total_export_kwh > 0 OR total_gas_m3 > 0`,
with SQL semantics `NULL > 0 = unknown` (row not kept). -/
def sqlGtZero (v : Option ℚ) : Bool :=
  match v with
  | none => false
  | some q => decide (0 < q)

/-- Whether a stored reading passes the `fetch_data` query's `WHERE` filter. -/
def rowKept (r : RawReading) : Bool :=
  sqlGtZero r.import_kwh || sqlGtZero r.export_kwh || sqlGtZero r.gas_m3

/-! ## Live power buffer (`src/app/pages/live_power.py`)

`_update_live_data` (lines 135-162) runs a `try` block that converts the
stored records to a DataFrame, fetches new samples, concatenates, and keeps
only rows with `ts >= datetime.now() - timedelta(minutes=GRAPH_TIME_RANGE_MINUTES)`;
on any exception it returns `existing_data` unchanged. There is no count
cap: eviction is purely by time. -/

/-- One entry of the `live-power-store-data` store. -/
structure LiveSample where
  ts : ℕ
  device_id : String
  active_power_w : ℚ
deriving DecidableEq

/-- The `try` block of `_update_live_data`: `fetched` is the result of
`_fetch_live_power()` (an exception anywhere in the block surfaces here);
on success the concatenated history is trimmed to
`ts ≥ now - windowSec` (kept iff `now ≤ ts + windowSec` over `ℕ`). -/
def updateTryBlock (existing : List LiveSample)
    (fetched : Except String (List LiveSample)) (now windowSec : ℕ) :
    Except String (List LiveSample) :=
  match fetched with
  | .error e => .error e
  | .ok nw => .ok ((existing ++ nw).filter (fun s => now ≤ s.ts + windowSec))

/-- `_update_live_data`: the `try` block's result, with the `except` handler
(lines 159-162) returning the previously stored data on any error. -/
def updateLiveData (existing : List LiveSample)
    (fetched : Except String (List LiveSample)) (now windowSec : ℕ) :
    List LiveSample :=
  match updateTryBlock existing fetched now windowSec with
  | .ok df => df
  | .error _ => existing

/-- Per-device timestamp view of one `_update_live_data` step: each cycle
appends one sample stamped `now` for the device, then evicts timestamps
older than `now - windowSec` (same trim as `updateTryBlock`; no count cap). -/
def trimUpdate (windowSec : ℕ) (buf : List ℕ) (now : ℕ) : List ℕ :=
  (buf ++ [now]).filter (fun ts => now ≤ ts + windowSec)

/-! ## P1 store (`src/p1_meter_reader.py`)

`ensure_table` (lines 159-195) creates `p1_meter_data` with
`UNIQUE (timestamp)`; `insert_data` (lines 206-221) inserts one row with
`datetime.now()` as timestamp, catches `psycopg2.IntegrityError` (the
duplicate-timestamp case) with a warning and a rollback, and catches every
other exception with an error log and a rollback — nothing is re-raised. -/

/-- Values of one `p1_meter_data` row (the four logged parameters). -/
structure P1Data where
  total_power_import_kwh : Option ℚ
  total_power_export_kwh : Option ℚ
  active_power_w : Option ℚ
  total_gas_m3 : Option ℚ
deriving DecidableEq

/-- The table `p1_meter_data`: rows of (timestamp, values), with the
`UNIQUE (timestamp)` constraint enforced at insert. -/
abbrev P1Store := List (ℕ × P1Data)

/-- The raw SQL `INSERT`: violating `UNIQUE (timestamp)` raises
`IntegrityError` and leaves the table unchanged (the transaction is rolled
back); otherwise the row is appended. -/
def p1RawInsert (store : P1Store) (now : ℕ) (d : P1Data) :
    Except Unit P1Store :=
  if store.any (fun row => row.1 = now) then .error ()
  else .ok (store ++ [(now, d)])

/-- `insert_data(conn, data)`: the raw insert with both `except` branches,
returning the resulting table and the error surfaced to the caller
(always `none`: every exception is caught and logged). -/
def insert_data (store : P1Store) (now : ℕ) (d : P1Data) :
    P1Store × Option Unit :=
  match p1RawInsert store now d with
  | .ok s => (s, none)
  | .error _ => (store, none)

/-! ## Database reconnection (`src/p1_meter_reader.py`)

`connect_db` (lines 138-156) tries up to `max_attempts` connections and
returns `None` when all fail. `main`'s loop (lines 237-245) checks
`conn.closed` at cycle start; on a closed connection it calls `connect_db`
and, if that returns `None`, logs and calls `sys.exit(1)`. At startup
(lines 230-233) a `None` from `connect_db` is likewise `sys.exit(1)`. -/

/-- `connect_db`'s retry loop: `oracle n` is the outcome of connection
attempt `n` (`some c` = a connection, `none` = an exception). -/
def connectLoop (oracle : ℕ → Option ℕ) : ℕ → ℕ → Option ℕ
  | _, 0 => none
  | attempt, n + 1 =>
    match oracle attempt with
    | some c => some c
    | none => connectLoop oracle (attempt + 1) n

/-- `connect_db(max_attempts=3, delay=5)`: first successful attempt wins,
`none` after `maxAttempts` failures. -/
def connect_db (oracle : ℕ → Option ℕ) (maxAttempts : ℕ) : Option ℕ :=
  connectLoop oracle 0 maxAttempts

/-- What the process does at a cycle boundary (or at startup):
continue with a connection, skip just this cycle, or terminate.
`skipCycle` is never produced by the code; it exists to state the
skip-the-cycle behaviour the specification describes. -/
inductive CycleAction
  | proceed (c : ℕ)
  | skipCycle
  | exitProcess
deriving DecidableEq

/-- Lines 239-245 of `main`: if the connection is closed at cycle start,
reconnect via `connect_db`; a `None` result is `sys.exit(1)`. An open
connection proceeds unchanged. -/
def cycleStartCheck (connClosed : Bool) (cur : ℕ)
    (oracle : ℕ → Option ℕ) (maxAttempts : ℕ) : CycleAction :=
  if connClosed then
    match connect_db oracle maxAttempts with
    | some c => .proceed c
    | none => .exitProcess
  else .proceed cur

/-- Lines 230-233 of `main`: the startup connection; `None` is
`sys.exit(1)`. -/
def startupAction (oracle : ℕ → Option ℕ) (maxAttempts : ℕ) : CycleAction :=
  match connect_db oracle maxAttempts with
  | some c => .proceed c
  | none => .exitProcess

/-! ## Helper lemmas -/

theorem pollLoop_all_fail (attemptF : ℕ → Except Unit RawReading)
    (h : ∀ n, attemptF n = .error ()) :
    ∀ (k a : ℕ), pollLoop attemptF a k = ⟨.failure, k, k⟩ := by
  intro k
  induction k with
  | zero => intro a; rfl
  | succ n ih => intro a; simp [pollLoop, h a, ih (a + 1)]

theorem connectLoop_all_fail (oracle : ℕ → Option ℕ)
    (h : ∀ n, oracle n = none) :
    ∀ (k a : ℕ), connectLoop oracle a k = none := by
  intro k
  induction k with
  | zero => intro a; rfl
  | succ n ih => intro a; simp [connectLoop, h a, ih (a + 1)]

theorem getLastD_mem_cons' : ∀ (l : List ℕ) (x : ℕ), l.getLastD x ∈ x :: l := by
  intro l
  induction l with
  | nil => intro x; simp
  | cons y t ih =>
    intro x
    simp only [List.getLastD_cons]
    exact List.mem_cons_of_mem x (ih y)

theorem chain_last_ge (I : ℕ) : ∀ (l : List ℕ) (x : ℕ),
    List.Chain' (fun a b => a + I ≤ b) (x :: l) →
    x + l.length * I ≤ l.getLastD x := by
  intro l
  induction l with
  | nil => intro x _; simp
  | cons y t ih =>
    intro x hchain
    rw [List.chain'_cons] at hchain
    obtain ⟨hxy, hyt⟩ := hchain
    have hih := ih y hyt
    simp only [List.getLastD_cons, List.length_cons]
    have : x + (t.length + 1) * I = (x + I) + t.length * I := by ring
    omega

theorem chain_le_last (I : ℕ) : ∀ (l : List ℕ) (x : ℕ),
    List.Chain' (fun a b => a + I ≤ b) (x :: l) →
    ∀ a ∈ x :: l, a ≤ l.getLastD x := by
  intro l
  induction l with
  | nil =>
    intro x _ a ha
    simp only [List.getLastD_nil]
    rcases List.mem_cons.mp ha with rfl | h
    · exact le_refl a
    · simp at h
  | cons y t ih =>
    intro x hchain a ha
    rw [List.chain'_cons] at hchain
    obtain ⟨hxy, hyt⟩ := hchain
    simp only [List.getLastD_cons]
    rcases List.mem_cons.mp ha with rfl | ha'
    · have hy : y ≤ t.getLastD y := ih y hyt y (List.mem_cons_self y t)
      omega
    · exact ih y hyt a ha'

end HouseEnergy

namespace HouseEnergy

/-! ## The claims -/

/-- C1: the cumulative-to-incremental diff yields delta 0 for the first
observation and `max 0 (v - lastValue)` for every later one; the sequence
50.0, 0.2, 0.5 yields deltas 0, 0 (reset absorbed), 0.3; and no emitted
delta is ever negative. -/
theorem claim_C1_counter_diff :
    (∀ (v : ℚ) (vs : List ℚ), counterDiff (v :: vs) =
      0 :: List.zipWith (fun a b => max 0 (b - a)) (v :: vs) vs)
    ∧ counterDiff [50, 1/5, 1/2] = [0, 0, 3/10]
    ∧ (∀ (l : List ℚ) (i : ℕ), 0 ≤ (counterDiff l).getD i 0) := by
  refine ⟨?_, ?_, ?_⟩
  · intro v vs
    simp [counterDiff, diffAux_eq_zipWith]
  · simp only [counterDiff, diffAux]
    norm_num
  · intro l i
    cases l with
    | nil => simp [counterDiff]
    | cons v vs =>
      cases i with
      | zero => simp [counterDiff]
      | succ j => simpa [counterDiff] using diffAux_nonneg v vs j

/-- C3: over a monotone non-decreasing cumulative series the emitted deltas
telescope: their sum is the last value minus the first. -/
theorem claim_C3_telescoping_sum (v : ℚ) (vs : List ℚ)
    (hmono : List.Chain (· ≤ ·) v vs) :
    (counterDiff (v :: vs)).sum = vs.getLastD v - v := by
  simp [counterDiff, diffAux_sum v vs hmono]

theorem claim_C3_witness :
    (counterDiff [(100 : ℚ), 502/5]).sum = ([(502 : ℚ)/5].getLastD 100) - 100 :=
  claim_C3_telescoping_sum 100 [502/5] (by constructor <;> norm_num)

/-- C10: `_update_live_data` returns the previously stored buffer contents
unchanged whenever its `try` block fails, and (being a total function)
never itself raises. -/
theorem claim_C10_preserved_on_error (existing : List LiveSample) (e : String)
    (now windowSec : ℕ) :
    updateLiveData existing (.error e) now windowSec = existing := rfl

/-- C2, counterexample: the write path persists the raw cumulative counters.
Two successful polls reporting cumulative import 100 and 100.4 are stored as
100 and 100.4, which differs from the incremental series `counterDiff`
(0 then 0.4) the claim says is persisted. -/
theorem claim_C2_counterexample :
    loggerStoredRows [⟨some 100, none, none⟩, ⟨some (502/5), none, none⟩] =
      [⟨some 100, none, none⟩, ⟨some (502/5), none, none⟩]
    ∧ (loggerStoredRows [⟨some 100, none, none⟩, ⟨some (502/5), none, none⟩]).map
        RawReading.import_kwh ≠ (counterDiff [100, 502/5]).map some := by
  have h1 : loggerStoredRows [⟨some 100, none, none⟩, ⟨some (502/5), none, none⟩] =
      [⟨some 100, none, none⟩, ⟨some (502/5), none, none⟩] := by
    simp [loggerStoredRows, cycleInsert]
  refine ⟨h1, ?_⟩
  rw [h1]
  intro hcontra
  simp only [counterDiff, diffAux, List.map_cons, List.map_nil, List.cons.injEq,
    Option.some.injEq] at hcontra
  norm_num at hcontra

/-- C2, amended: every record persisted for a successful poll contains the
raw cumulative counter values returned by the device, unchanged; the
cumulative-to-incremental conversion happens on the read side
(`fetch_data` / `get_summary_chart`), not before persistence. -/
theorem claim_C2_amended (rs : List RawReading)
    (h : ∀ r ∈ rs, r.import_kwh ≠ none ∨ r.export_kwh ≠ none ∨ r.gas_m3 ≠ none) :
    loggerStoredRows rs = rs := by
  induction rs with
  | nil => rfl
  | cons r rest ih =>
    have hr := h r (List.mem_cons_self r rest)
    have hrest := ih (fun x hx => h x (List.mem_cons_of_mem r hx))
    simp only [loggerStoredRows] at hrest ⊢
    simp [List.filterMap_cons, cycleInsert, hr, hrest]

theorem claim_C2_witness :
    loggerStoredRows [⟨some 100, none, none⟩] = [⟨some 100, none, none⟩] :=
  claim_C2_amended [⟨some 100, none, none⟩] (by
    intro r hr
    simp only [List.mem_singleton] at hr
    subst hr
    left
    simp)

/-- C4: `poll_device` against a client failing every attempt makes exactly
`retries` calls (sleeping after each failure) and returns the failure
triple; against a client that fails on attempts 1 and 2 and succeeds on
attempt 3 (with `retries ≥ 3`), it returns the reading after exactly 3
calls with 2 sleeps between attempts. -/
theorem claim_C4_retry (attemptF : ℕ → Except Unit RawReading)
    (retries : ℕ) (r : RawReading) :
    ((∀ n, attemptF n = .error ()) →
      poll_device attemptF retries = ⟨.failure, retries, retries⟩)
    ∧ (attemptF 1 = .error () → attemptF 2 = .error () → attemptF 3 = .ok r →
      3 ≤ retries → poll_device attemptF retries = ⟨.success r, 3, 2⟩) := by
  constructor
  · intro h
    exact pollLoop_all_fail attemptF h retries 1
  · intro h1 h2 h3 hle
    obtain ⟨k, rfl⟩ := Nat.exists_eq_add_of_le' hle
    simp [poll_device, pollLoop, h1, h2, h3]

theorem claim_C4_witness :
    poll_device (fun _ => .error ()) 2 = ⟨.failure, 2, 2⟩
    ∧ poll_device
        (fun n => if n ≤ 2 then .error () else .ok ⟨some 1, none, none⟩) 5 =
      ⟨.success ⟨some 1, none, none⟩, 3, 2⟩ :=
  ⟨(claim_C4_retry (fun _ => .error ()) 2 ⟨some 1, none, none⟩).1 (fun _ => rfl),
   (claim_C4_retry (fun n => if n ≤ 2 then .error () else .ok ⟨some 1, none, none⟩)
      5 ⟨some 1, none, none⟩).2 rfl rfl rfl (by norm_num)⟩

/-- C5: inserting a reading whose timestamp key already exists (exactly one
stored row carries it) leaves the store unchanged, surfaces no error to the
caller (the `IntegrityError` is caught, logged and rolled back), and leaves
exactly one stored reading for that key. -/
theorem claim_C5_duplicate_insert (store : P1Store) (now : ℕ) (d : P1Data)
    (h : (store.filter (fun row => row.1 = now)).length = 1) :
    (insert_data store now d).1 = store
    ∧ (insert_data store now d).2 = none
    ∧ ((insert_data store now d).1.filter (fun row => row.1 = now)).length = 1 := by
  have hany : store.any (fun row => row.1 = now) = true := by
    rcases hf : store.filter (fun row => row.1 = now) with _ | ⟨x, rest⟩
    · rw [hf] at h; simp at h
    · have hx : x ∈ store.filter (fun row => row.1 = now) := by
        rw [hf]; exact List.mem_cons_self _ _
      rw [List.mem_filter] at hx
      exact List.any_eq_true.mpr ⟨x, hx.1, hx.2⟩
  refine ⟨?_, ?_, ?_⟩ <;> simp [insert_data, p1RawInsert, hany, h]

theorem claim_C5_witness :
    (insert_data [(5, ⟨none, none, none, none⟩)] 5 ⟨some 1, none, none, none⟩).1 =
      [(5, ⟨none, none, none, none⟩)]
    ∧ (insert_data [(5, ⟨none, none, none, none⟩)] 5 ⟨some 1, none, none, none⟩).2 =
      none
    ∧ (((insert_data [(5, ⟨none, none, none, none⟩)] 5
        ⟨some 1, none, none, none⟩).1).filter (fun row => row.1 = 5)).length = 1 :=
  claim_C5_duplicate_insert [(5, ⟨none, none, none, none⟩)] 5
    ⟨some 1, none, none, none⟩ (by simp)

/-- C6, counterexample: a response whose `total_power_import_kwh` field is
absent, for a device that supports `import_kwh`, parses as a successful
reading with the substituted default 0 — not as a malformed-response error
as the claim demands. -/
theorem claim_C6_counterexample :
    pollParse ⟨.absent, .absent, .absent⟩ ["import_kwh"] = .ok ⟨some 0, none, none⟩
    ∧ pollParse ⟨.absent, .absent, .absent⟩ ["import_kwh"] ≠ .error () := by
  have h1 : pollParse ⟨.absent, .absent, .absent⟩ ["import_kwh"] =
      .ok ⟨some 0, none, none⟩ := rfl
  refine ⟨h1, ?_⟩
  rw [h1]
  intro hcontra
  exact Except.noConfusion hcontra

/-- C6, amended: a non-numeric value in a supported metric's field makes the
attempt fail (the `float()` call raises), but a missing field is substituted
with the default 0 and the attempt reports success. -/
theorem claim_C6_amended (d : DeviceResponse) (s : List String) :
    ("import_kwh" ∈ s → d.total_power_import_kwh = JField.nonnum →
      pollParse d s = .error ())
    ∧ ("import_kwh" ∈ s → d.total_power_import_kwh = JField.absent →
      ∀ r, pollParse d s = .ok r → r.import_kwh = some 0) := by
  constructor
  · intro hmem hf
    simp [pollParse, parseMetric, floatOfGet, Except.map, hmem, hf]
  · intro hmem hf r hok
    unfold pollParse at hok
    rcases h1 : parseMetric (decide ("import_kwh" ∈ s)) d.total_power_import_kwh
      with e | ik
    · rw [h1] at hok; simp at hok
    · rw [h1] at hok
      have hik : ik = some 0 := by
        rw [hf] at h1
        simp [parseMetric, floatOfGet, Except.map, hmem] at h1
        exact h1.symm
      rcases h2 : parseMetric (decide ("export_kwh" ∈ s)) d.total_power_export_kwh
        with e | ek
      · rw [h2] at hok; simp at hok
      · rw [h2] at hok
        rcases h3 : parseMetric (decide ("gas_m3" ∈ s)) d.total_gas_m3 with e | gm
        · rw [h3] at hok; simp at hok
        · rw [h3] at hok
          simp only [Except.ok.injEq] at hok
          rw [← hok, hik]

theorem claim_C6_witness :
    pollParse ⟨.nonnum, .absent, .absent⟩ ["import_kwh"] = .error ()
    ∧ (pollParse ⟨.absent, .absent, .absent⟩ ["import_kwh"] = .ok ⟨some 0, none, none⟩ →
        RawReading.import_kwh ⟨some 0, none, none⟩ = some 0) :=
  ⟨(claim_C6_amended ⟨.nonnum, .absent, .absent⟩ ["import_kwh"]).1
      (by simp) rfl,
   (claim_C6_amended ⟨.absent, .absent, .absent⟩ ["import_kwh"]).2
      (by simp) rfl ⟨some 0, none, none⟩⟩

/-- C7, counterexample: with the connection found closed at cycle start and
every reconnect attempt failing, `main` reaches `sys.exit(1)` — the process
terminates instead of skipping the cycle. -/
theorem claim_C7_counterexample :
    cycleStartCheck true 0 (fun _ => none) 3 = CycleAction.exitProcess
    ∧ CycleAction.exitProcess ≠ CycleAction.skipCycle := by
  refine ⟨rfl, ?_⟩
  intro h
  exact CycleAction.noConfusion h

/-- C7, amended: a storage-connection failure is fatal both at startup and
when reconnection after a mid-run connection loss exhausts its bounded
attempts — the cycle is not skipped; an open connection proceeds unchanged. -/
theorem claim_C7_amended (oracle : ℕ → Option ℕ) (maxAttempts cur : ℕ) :
    ((∀ n, oracle n = none) →
      cycleStartCheck true cur oracle maxAttempts = .exitProcess)
    ∧ cycleStartCheck false cur oracle maxAttempts = .proceed cur
    ∧ ((∀ n, oracle n = none) → startupAction oracle maxAttempts = .exitProcess) := by
  refine ⟨?_, rfl, ?_⟩
  · intro h
    simp [cycleStartCheck, connect_db, connectLoop_all_fail oracle h maxAttempts 0]
  · intro h
    simp [startupAction, connect_db, connectLoop_all_fail oracle h maxAttempts 0]

theorem claim_C7_witness :
    cycleStartCheck true 7 (fun _ => none) 3 = CycleAction.exitProcess
    ∧ cycleStartCheck false 7 (fun _ => none) 3 = CycleAction.proceed 7
    ∧ startupAction (fun _ => none) 3 = CycleAction.exitProcess :=
  ⟨(claim_C7_amended (fun _ => none) 3 7).1 (fun _ => rfl),
   (claim_C7_amended (fun _ => none) 3 7).2.1,
   (claim_C7_amended (fun _ => none) 3 7).2.2 (fun _ => rfl)⟩

/-- C8, counterexample: a successful poll with all metric values `None` is
not persisted (the insert guard skips it), and a stored all-zero reading is
not returned by the read-side query (its `WHERE` filter demands a strictly
positive metric). -/
theorem claim_C8_counterexample :
    cycleInsert ⟨none, none, none⟩ = none
    ∧ rowKept ⟨some 0, some 0, some 0⟩ = false := ⟨rfl, rfl⟩

/-- C8, amended: a reading with all metrics zero (or any non-`None` metric)
is persisted unchanged, but one with all metrics `None` is skipped; the
read-side query returns a stored reading iff some metric value is strictly
positive, so all-zero readings are stored yet never returned. -/
theorem claim_C8_amended :
    (∀ (q1 q2 q3 : ℚ), cycleInsert ⟨some q1, some q2, some q3⟩ =
      some ⟨some q1, some q2, some q3⟩)
    ∧ cycleInsert ⟨none, none, none⟩ = none
    ∧ (∀ r : RawReading, rowKept r = true ↔
        (∃ q, r.import_kwh = some q ∧ 0 < q) ∨ (∃ q, r.export_kwh = some q ∧ 0 < q)
        ∨ (∃ q, r.gas_m3 = some q ∧ 0 < q))
    ∧ rowKept ⟨some 0, some 0, some 0⟩ = false := by
  refine ⟨?_, rfl, ?_, rfl⟩
  · intro q1 q2 q3
    simp [cycleInsert]
  · intro r
    rcases r with ⟨i, e, g⟩
    cases i <;> cases e <;> cases g <;>
      simp [rowKept, sqlGtZero, decide_eq_true_eq, or_assoc]

set_option maxRecDepth 4000 in
/-- C9, counterexample: the live-buffer update evicts purely by time, with
no count cap; appending every 2 s over a 300 s window retains 151 samples
for the device — more than the claimed bound of 150. -/
theorem claim_C9_counterexample :
    150 < (((List.range 151).map (fun n => 2 * n)).foldl (trimUpdate 300) []).length := by
  decide

/-- C9, amended: after an update, every retained sample is within the
observation window of the current time (and not in the future), and when
successive samples are at least the poll interval apart, the per-device
count is at most `⌊window / interval⌋ + 1` — 151 samples for a 300 s window
at a 2 s cadence, not 150. -/
theorem claim_C9_amended (windowSec I : ℕ) (hI : 0 < I) (buf : List ℕ) (now : ℕ)
    (hchain : List.Chain' (fun a b => a + I ≤ b) (buf ++ [now])) :
    (∀ ts ∈ trimUpdate windowSec buf now, now ≤ ts + windowSec ∧ ts ≤ now)
    ∧ (trimUpdate windowSec buf now).length ≤ windowSec / I + 1 := by
  have hle_now : ∀ a ∈ buf ++ [now], a ≤ now := by
    cases buf with
    | nil =>
      intro a ha
      simp at ha
      omega
    | cons b bs =>
      intro a ha
      have h := chain_le_last I (bs ++ [now]) b hchain a ha
      rwa [List.getLastD_concat] at h
  have hmem_filter : ∀ ts ∈ trimUpdate windowSec buf now,
      now ≤ ts + windowSec ∧ ts ≤ now := by
    intro ts hts
    unfold trimUpdate at hts
    rw [List.mem_filter] at hts
    exact ⟨by simpa using hts.2, hle_now ts hts.1⟩
  refine ⟨hmem_filter, ?_⟩
  haveI : IsTrans ℕ (fun a b => a + I ≤ b) := ⟨fun a b c hab hbc => by omega⟩
  have hsub : List.Sublist (trimUpdate windowSec buf now) (buf ++ [now]) :=
    List.filter_sublist _
  have hchain' : List.Chain' (fun a b => a + I ≤ b) (trimUpdate windowSec buf now) :=
    hchain.sublist hsub
  rcases hf : trimUpdate windowSec buf now with _ | ⟨x, rest⟩
  · simp
  · have hx : x ∈ trimUpdate windowSec buf now := by
      rw [hf]; exact List.mem_cons_self _ _
    have hxw := hmem_filter x hx
    have hlast_mem : rest.getLastD x ∈ trimUpdate windowSec buf now := by
      rw [hf]; exact getLastD_mem_cons' rest x
    have hlast := (hmem_filter _ hlast_mem).2
    have hge : x + rest.length * I ≤ rest.getLastD x := by
      apply chain_last_ge I rest x
      rw [hf] at hchain'
      exact hchain'
    have hmul : rest.length * I ≤ windowSec := by omega
    have hdiv : rest.length ≤ windowSec / I := (Nat.le_div_iff_mul_le hI).mpr hmul
    simp only [List.length_cons]
    omega

theorem claim_C9_witness :
    (∀ ts ∈ trimUpdate 300 [0, 2] 4, 4 ≤ ts + 300 ∧ ts ≤ 4)
    ∧ (trimUpdate 300 [0, 2] 4).length ≤ 300 / 2 + 1 :=
  claim_C9_amended 300 2 (by norm_num) [0, 2] 4 (by
    simp [List.chain'_cons])

end HouseEnergy
